import Mathlib

/-!
Verification development for `faucris.py`, a client of the FAU-CRIS research
information webservice.  The Python source is embedded shallowly: machine
strings become `String`, Python `None`-or-string values become `Option String`,
dictionaries become insertion-ordered association lists with Python dict
update semantics, and code that can raise becomes `Except PyErr`.
All definitions are translated from the source file; comments cite the
corresponding source lines.
-/

/-- Python exception outcomes that the modelled code can produce. -/
inductive PyErr where
  /-- `raise Exception(msg)` -/
  | exceptionMsg (msg : String)
  /-- `AttributeError` (e.g. calling `.lower()` on `None`, or `getattr` on a
  name the object does not have).  The payload names the missing attribute. -/
  | attributeError (attr : String)
  /-- `UnboundLocalError`: a local variable read before any assignment. -/
  | unboundLocalError
  /-- `IndexError` (e.g. `xs[1]` on a one-element list, `xpath(..)[0]` on an
  empty node-set). -/
  | indexError
  /-- `KeyError` on a real `dict` indexing operation. -/
  | keyError (k : String)
  /-- `NameError`: a global name that is not bound at module level. -/
  | nameError (n : String)
  /-- `TypeError` (e.g. ordering comparison against `None` inside `sorted`). -/
  | typeError
  /-- `ValueError` (e.g. an invalid format specification). -/
  | valueError
deriving DecidableEq

/-- Python dict lookup `m.get(k)` / `m[k]` on an insertion-ordered
association list: first (and, for lists built by `dictInsert`, only)
binding of the key. -/
def dictGet {κ α : Type} [DecidableEq κ] : List (κ × α) → κ → Option α
  | [], _ => none
  | p :: ps, k => if p.1 = k then some p.2 else dictGet ps k

/-- Python dict assignment `m[k] = v`: replace the value in place if the key
is present, otherwise append the new binding at the end (insertion order). -/
def dictInsert {κ α : Type} [DecidableEq κ] : List (κ × α) → κ → α → List (κ × α)
  | [], k, v => [(k, v)]
  | p :: ps, k, v => if p.1 = k then (k, v) :: ps else p :: dictInsert ps k v

/-- The value of the last pair of `ps` whose key is `k`, if any. -/
def lastVal {κ α : Type} [DecidableEq κ] : List (κ × α) → κ → Option α
  | [], _ => none
  | p :: ps, k =>
    match lastVal ps k with
    | some v => some v
    | none => if p.1 = k then some p.2 else none

/-- Python `str.lower()` (the source only ever feeds it ASCII data). -/
def pyLower (s : String) : String := ⟨s.data.map Char.toLower⟩

/-- Python `str(x)` for a value that is either a string or `None`. -/
def pyStr (v : Option String) : String :=
  match v with
  | none => "None"
  | some s => s

/-- Python truthiness of a string-or-`None` value: `None` and `""` are falsy. -/
def pyTruthy (v : Option String) : Bool :=
  match v with
  | none => false
  | some s => !s.isEmpty

/-! ## Entity model (`CrisEntity.__init__`, `CrisEntity.__getitem__`, lines 210-247) -/

/-- One `<attribute .../>` child node of a raw record, as the source reads it:
`tag` is the XML tag, `name`/`language`/`disposition` are the XML attribute
markers (`None` when absent), `dataText` is `some t` when a `./data` sub-node
exists with text `t` (itself `None` for an empty node) and `none` when the
sub-node is absent; likewise `additionalInfoText` for `./additionalInfo`. -/
structure AttrNode where
  tag : String
  name : Option String
  language : Option String
  disposition : Option String
  dataText : Option (Option String)
  additionalInfoText : Option (Option String)
deriving DecidableEq

/-- One raw record node (`initial_data`): the `id`/`createdOn`/`updatedOn`
XML attributes (`initial_data.get(..)`, `None` when absent) and the child
nodes (`initial_data.getchildren()`). -/
structure RawRecord where
  id : Option String
  createdOn : Option String
  updatedOn : Option String
  children : List AttrNode
deriving DecidableEq

/-- A normalized entity: the `_data` attribute bag built by
`CrisEntity.__init__`, an insertion-ordered dict from lower-cased attribute
name to string-or-`None` value. -/
structure CrisEntity where
  _data : List (String × Option String)
deriving DecidableEq

/-- `CrisEntity.__getitem__` (lines 246-247): `self._data.get(item)`.
A missing key and a key stored with value `None` both come back as `none` --
this indexing never raises `KeyError`. -/
def CrisEntity.getItem (e : CrisEntity) (k : String) : Option String :=
  (dictGet e._data k).join

/-- The key/value contribution of one child node in the `__init__` loop
(lines 225-242): non-`attribute` tags are skipped; `name` is read and
lower-cased (`AttributeError` if the marker is absent, since `None.lower()`
fails); `language == "1"` appends `_en`; a `choicegroup` disposition reads
`./additionalInfo` under a bare `try/except` that turns a missing sub-node
into the value `None`; otherwise `./data` is read WITHOUT any guard, so a
missing `data` sub-node raises `IndexError` out of `__init__`. -/
def childKV (c : AttrNode) : Except PyErr (Option (String × Option String)) :=
  if pyLower c.tag ≠ "attribute" then .ok none
  else
    match c.name with
    | none => .error (.attributeError "lower")
    | some n =>
      let name := if c.language = some "1" then pyLower n ++ "_en" else pyLower n
      if c.disposition = some "choicegroup" then
        match c.additionalInfoText with
        | none => .ok (some (name, none))
        | some t => .ok (some (name, t))
      else
        match c.dataText with
        | none => .error .indexError
        | some t => .ok (some (name, t))

/-- The value-mapping loop of `CrisEntity.__init__` (lines 225-242), folded
over the children with the bag built so far. -/
def normalizeChildren (d : List (String × Option String)) :
    List AttrNode → Except PyErr (List (String × Option String))
  | [] => .ok d
  | c :: rest =>
    match childKV c with
    | .error e => .error e
    | .ok none => normalizeChildren d rest
    | .ok (some (k, v)) => normalizeChildren (dictInsert d k v) rest

/-- `CrisEntity.__init__` (lines 214-244): the core fields `id`, `createdOn`,
`updatedOn` are stored under lower-cased keys with `initial_data.get(..)`
(so possibly `None`), then the attribute children are folded in. -/
def CrisEntity.normalize (r : RawRecord) : Except PyErr CrisEntity :=
  match normalizeChildren
      [("id", r.id), ("createdon", r.createdOn), ("updatedon", r.updatedOn)]
      r.children with
  | .error e => .error e
  | .ok d => .ok ⟨d⟩

/-! ## Selector (`Selector.__init__`, `Selector.evaluate`, lines 422-484) -/

/-- A parsed selector: dict from field name to dict from operator name to
stringified reference value (`self.selectors`). -/
structure Selector where
  selectors : List (String × List (String × String))
deriving DecidableEq

/-- Python `"k".split("__")` specialised to the two-underscore separator used
by `Selector.__init__`; splits on each non-overlapping occurrence, left to
right. -/
def splitDunder : List Char → List Char → List (List Char)
  | [], acc => [acc.reverse]
  | '_' :: '_' :: cs, acc => acc.reverse :: splitDunder cs []
  | c :: cs, acc => splitDunder cs (c :: acc)

/-- `Selector.__init__` (lines 426-460): each criteria key is lower-cased and
split on `__`; `op[0]` is the field, `op[1]` the operator (a key without the
separator raises `IndexError` at `op[1]`); the reference value is stringified
(modelled as already a string) and stored in the nested dict. -/
def selectorInitGo (flist : List (String × List (String × String))) :
    List (String × String) → Except PyErr (List (String × List (String × String)))
  | [] => .ok flist
  | (k, v) :: rest =>
    match splitDunder (pyLower k).data [] with
    | f :: o :: _ =>
      let cur := (dictGet flist ⟨f⟩).getD []
      selectorInitGo (dictInsert flist ⟨f⟩ (dictInsert cur ⟨o⟩ v)) rest
    | _ => .error .indexError

/-- `Selector.__init__` (lines 426-460), packaging the parsed criteria. -/
def Selector.init (criteria : List (String × String)) : Except PyErr Selector :=
  match selectorInitGo [] criteria with
  | .error e => .error e
  | .ok flist => .ok ⟨flist⟩

/-- Strict lexicographic order on code points, Python `str.__lt__`. -/
def listStrLt : List Char → List Char → Bool
  | [], [] => false
  | [], _ :: _ => true
  | _ :: _, [] => false
  | a :: as, b :: bs =>
    if a.toNat < b.toNat then true
    else if b.toNat < a.toNat then false
    else listStrLt as bs

/-- Python `a < b` on strings. -/
def strLtB (a b : String) : Bool := listStrLt a.data b.data

/-- Does `hay` begin with `needle`? -/
def beginsWith : List Char → List Char → Bool
  | [], _ => true
  | _ :: _, [] => false
  | a :: as, b :: bs => a = b && beginsWith as bs

/-- Python `needle in hay` substring test (`str.__contains__`). -/
def pyContainsSub (hay needle : List Char) : Bool :=
  match hay with
  | [] => needle.isEmpty
  | _ :: t => beginsWith needle hay || pyContainsSub t needle

/-- The result of one `method(_v)` call, as far as the test on line 481
(`if method(_v) is False: return False`) can distinguish: a genuine `bool`,
or any other object -- which is never the identical `False`. -/
inductive PyRes where
  | bool (b : Bool)
  | obj
deriving DecidableEq

/-- The bare names X for which the lookup `getattr(value, "__X__")` succeeds
on a CPython 3.11 string object: the special names of `dir("")` (CPython 3
versions before 3.11 lack `getstate`; no theorem relies on that name). -/
def strSpecialOps : List String :=
  ["add", "class", "contains", "delattr", "dir", "doc", "eq", "format",
   "ge", "getattribute", "getitem", "getnewargs", "getstate", "gt", "hash",
   "init", "init_subclass", "iter", "le", "len", "lt", "mod", "mul", "ne",
   "new", "reduce", "reduce_ex", "repr", "rmod", "rmul", "setattr",
   "sizeof", "str", "subclasshook"]

/-- One predicate application in `Selector.evaluate` (lines 479-482):
`method = getattr(value, "__%s__" % _o)` followed by `method(_v)`.
The lookup raises `AttributeError` for every name outside `strSpecialOps`.
For a found name the call behaves as follows, each case checked against
CPython 3.11 with a string argument (`_v` is always a string):
the rich comparisons and `contains` return a `bool`;
`add` (the concatenated string), `class` (`str(_v)`), `init` (`None`) and
`subclasshook` (`NotImplemented`) return a non-`False` object, so their
predicate is silently passed by the `is False` test;
`delattr` and `getattribute` raise `AttributeError` for a reference naming
no string attribute (`getattribute` returns the attribute -- also silently
passing -- for a reference that names one; no theorem relies on these two);
`format` raises `ValueError` for a reference that is not a valid format
specification (a width-like reference would return a padded string; not
relied upon); each remaining name rejects the single string argument with
`TypeError` (`mod`/`rmod` would instead format a value containing a printf
conversion; not relied upon). -/
def applyOp (value ref op : String) : Except PyErr PyRes :=
  if strSpecialOps.contains op then
    if op = "eq" then .ok (.bool (value = ref))
    else if op = "ne" then .ok (.bool (value ≠ ref))
    else if op = "lt" then .ok (.bool (strLtB value ref))
    else if op = "le" then .ok (.bool (!strLtB ref value))
    else if op = "gt" then .ok (.bool (strLtB ref value))
    else if op = "ge" then .ok (.bool (!strLtB value ref))
    else if op = "contains" then .ok (.bool (pyContainsSub value.data ref.data))
    else if op = "add" || op = "class" || op = "init" || op = "subclasshook" then
      .ok .obj
    else if op = "delattr" || op = "getattribute" then .error (.attributeError ref)
    else if op = "format" then .error .valueError
    else .error .typeError
  else .error (.attributeError op)

/-- The inner loop of `Selector.evaluate` over one field's predicates
(lines 479-482): only a call result that IS `False` fails the filter, an
exception propagates, and any other result -- including the non-bool result
of a non-comparison method -- lets the predicate pass silently. -/
def evalPreds (value : String) : List (String × String) → Except PyErr Bool
  | [] => .ok true
  | (op, ref) :: rest =>
    match applyOp value ref op with
    | .error e => .error e
    | .ok (.bool false) => .ok false
    | .ok _ => evalPreds value rest

/-- The outer loop of `Selector.evaluate` (lines 470-484).  For each field,
`value = str(dataset[_a]).lower()`.  NOTE: the source wraps this line in
`try .. except KeyError: continue`, but `CrisEntity.__getitem__` is
`self._data.get(item)`, which returns `None` instead of raising, so the
skip branch is unreachable for entity datasets and an absent attribute
yields the string `"none"` (`str(None).lower()`). -/
def evalFields (d : CrisEntity) : List (String × List (String × String)) → Except PyErr Bool
  | [] => .ok true
  | (a, preds) :: rest =>
    match evalPreds (pyLower (pyStr (d.getItem a))) preds with
    | .error e => .error e
    | .ok false => .ok false
    | .ok true => evalFields d rest

/-- `Selector.evaluate` (lines 462-484). -/
def Selector.evaluate (sel : Selector) (d : CrisEntity) : Except PyErr Bool :=
  evalFields d sel.selectors

example : Selector.init [("x__eq", "banana")] = .ok ⟨[("x", [("eq", "banana")])]⟩ := rfl
example : Selector.evaluate ⟨[("x", [("eq", "banana")])]⟩ ⟨[("id", some "1")]⟩ = .ok false := rfl
example : Selector.evaluate ⟨[("x", [("eq", "none")])]⟩ ⟨[("id", some "1")]⟩ = .ok true := rfl
example : Selector.evaluate ⟨[("x", [("eq", "A")])]⟩ ⟨[("x", some "A")]⟩ = .ok false := rfl
example : Selector.evaluate ⟨[("x", [("eq", "a")])]⟩ ⟨[("x", some "A")]⟩ = .ok true := rfl

/-! ## Fetch/Merge engine (`FauCris.retrieve`, lines 54-94).

The transport and XML split are collaborators: a request descriptor resolves
through `self.get` either to a parsed document or to an exception that the
first loop swallows (`except: continue`), modelled as
`fetchDoc : String → Option (List RawRecord)` where the record list is the
result of the kind-specific `xpath` split.  Each raw record is normalized
with the entity constructor (`_class(_s)`) and merged by id. -/

/-- The body of the merge loop for one raw record (lines 86-92): normalize,
then `if dataset["id"] and (selector is None or selector.evaluate(dataset))`.
Returns the `(id, entity)` pair to merge, `none` when the record is skipped
(falsy id or failed filter), or the propagated exception. -/
def keptRecord (sel : Option Selector) (r : RawRecord) :
    Except PyErr (Option (String × CrisEntity)) :=
  match CrisEntity.normalize r with
  | .error e => .error e
  | .ok dataset =>
    match dataset.getItem "id" with
    | none => .ok none
    | some i =>
      if i.isEmpty then .ok none
      else
        match sel with
        | none => .ok (some (i, dataset))
        | some s =>
          match s.evaluate dataset with
          | .error e => .error e
          | .ok true => .ok (some (i, dataset))
          | .ok false => .ok none

/-- One merge step: `result[dataset["id"]] = dataset` when the record is kept. -/
def processRecord (sel : Option Selector) (result : List (String × CrisEntity))
    (r : RawRecord) : Except PyErr (List (String × CrisEntity)) :=
  match keptRecord sel r with
  | .error e => .error e
  | .ok none => .ok result
  | .ok (some (k, d)) => .ok (dictInsert result k d)

/-- The merge loop over all raw records of all surviving documents. -/
def processRecords (sel : Option Selector) (result : List (String × CrisEntity)) :
    List RawRecord → Except PyErr (List (String × CrisEntity))
  | [] => .ok result
  | r :: rest =>
    match processRecord sel result r with
    | .error e => .error e
    | .ok result2 => processRecords sel result2 rest

/-- `FauCris.retrieve(reqs, _class, selector)` (lines 54-94): fetch each
descriptor (failures skipped), split each document into raw records, and
merge the normalized entities into one id-keyed dict. -/
def retrieve (reqs : List String) (fetchDoc : String → Option (List RawRecord))
    (sel : Option Selector) : Except PyErr (List (String × CrisEntity)) :=
  processRecords sel [] ((reqs.filterMap fetchDoc).flatten)

/-- Specification-side companion of `retrieve`: the flat list of `(id, entity)`
pairs that pass the id/selector test, in descriptor order, without merging. -/
def keptList (sel : Option Selector) : List RawRecord → Except PyErr (List (String × CrisEntity))
  | [] => .ok []
  | r :: rest =>
    match keptRecord sel r with
    | .error e => .error e
    | .ok p? =>
      match keptList sel rest with
      | .error e => .error e
      | .ok t => .ok (match p? with | none => t | some p => p :: t)

/-- The kept pairs of a whole `retrieve` run. -/
def keptPairs (reqs : List String) (fetchDoc : String → Option (List RawRecord))
    (sel : Option Selector) : Except PyErr (List (String × CrisEntity)) :=
  keptList sel ((reqs.filterMap fetchDoc).flatten)

/-! ## Formatter (`Formatter.__init__`, `Formatter.execute`, lines 487-580) -/

/-- A `group_order`/`sort_order` argument: the `SORT_ASC`/`SORT_DESC`
sentinels or an explicit list of values. -/
inductive OrderArg where
  | asc
  | desc
  | values (l : List String)
deriving DecidableEq

/-- The stored `group_order`: a sentinel, or the lower-cased explicit list.
Group keys are Python values that can also be `None` (when `group_by` and
`sort_by` are both unset), hence `Option String`. -/
inductive GroupOrder where
  | asc
  | desc
  | explicit (l : List (Option String))
deriving DecidableEq

/-- The `Formatter` object state after `__init__`. -/
structure Formatter where
  group_by : Option String
  group_order : GroupOrder
  sort_by : Option String
  sort_order : OrderArg
deriving DecidableEq

/-- `Formatter.__init__` (lines 492-521).  `group_by` is lower-cased when set;
a list `group_order` is lower-cased elementwise.  The `sort_by` assignment is
`try: self.sort_by = sort_by.lower() except ValueError: self.sort_by = None`:
when `sort_by` is `None`, `None.lower()` raises `AttributeError`, which the
`except ValueError` clause does NOT catch, so construction fails.  A list
`sort_order` is lower-cased and stored as-is. -/
def Formatter.init (group_by : Option String) (group_order : OrderArg)
    (sort_by : Option String) (sort_order : OrderArg) : Except PyErr Formatter :=
  let gb := group_by.map pyLower
  let go : GroupOrder :=
    match group_order with
    | .asc => .asc
    | .desc => .desc
    | .values l => .explicit (l.map (fun s => some (pyLower s)))
  match sort_by with
  | none => .error (.attributeError "lower")
  | some s =>
    let so : OrderArg :=
      match sort_order with
      | .asc => .asc
      | .desc => .desc
      | .values l => .values (l.map pyLower)
    .ok ⟨gb, go, some (pyLower s), so⟩

/-- Python string interpolation `"%s" % x` for a string-or-`None` value. -/
def fmtPct (o : Option String) : String :=
  match o with
  | none => "None"
  | some s => s

/-- Group dictionaries: ordered dict from group key (a Python value, possibly
`None`) to the list of entities in the group. -/
abbrev Groups := List (Option String × List CrisEntity)

/-- Lines 543-546: create the group on first use, then append the entity. -/
def appendGroup (g : Groups) (k : Option String) (d : CrisEntity) : Groups :=
  dictInsert g k ((dictGet g k).getD [] ++ [d])

/-- The grouping loop of `Formatter.execute` (lines 534-546), with the
function-local variable `groupvalue` carried across iterations (`none` =
not yet assigned).  For each entity,
`groupvalue = (d["%s" % self.group_by]).lower()` is attempted:
`CrisEntity.__getitem__` never raises `KeyError` (so the
`except KeyError: raise Exception("selected attribute not found: ..")`
handler is dead code); when the attribute is absent the value is `None` and
`.lower()` raises `AttributeError`, which is caught.  The handler assigns
`groupvalue = self.sort_by` only when `self.group_by is None`; otherwise
`groupvalue` keeps its value from the previous iteration -- unbound on the
first iteration (`UnboundLocalError`), the previous entity's group later. -/
def groupLoop (f : Formatter) :
    List (String × CrisEntity) → Option (Option String) → Groups →
    Except PyErr (Option (Option String) × Groups)
  | [], gv, unsorted => .ok (gv, unsorted)
  | (_, d) :: rest, gv, unsorted =>
    match d.getItem (fmtPct f.group_by) with
    | some s =>
      groupLoop f rest (some (some (pyLower s))) (appendGroup unsorted (some (pyLower s)) d)
    | none =>
      match f.group_by with
      | none => groupLoop f rest (some f.sort_by) (appendGroup unsorted f.sort_by d)
      | some _ =>
        match gv with
        | none => .error .unboundLocalError
        | some key => groupLoop f rest (some key) (appendGroup unsorted key d)

/-- The keys of a group dict, in insertion order (`unsorted.keys()`). -/
def keysOf (g : Groups) : List (Option String) := g.map Prod.fst

/-- Stable insertion of `a` after every element it is not strictly before. -/
def insBy {α : Type} (lt : α → α → Bool) (a : α) : List α → List α
  | [] => [a]
  | b :: bs => if lt a b then a :: b :: bs else b :: insBy lt a bs

/-- Python `sorted(l, key=key, reverse=desc)`: a stable sort by string key. -/
def pySorted {α : Type} (key : α → String) (desc : Bool) (l : List α) : List α :=
  l.foldl
    (fun acc a =>
      insBy (fun x y => if desc then strLtB (key y) (key x) else strLtB (key x) (key y)) a acc)
    []

/-- `sorted(unsorted.keys(), reverse=..)` (lines 550-551).  Ordering
comparisons involving `None` raise `TypeError` in Python 3; with two or more
keys every key takes part in at least one comparison, so a `None` key makes
`sorted` raise; a singleton or empty key list is returned unchanged. -/
def sortGKeys (ks : List (Option String)) (desc : Bool) :
    Except PyErr (List (Option String)) :=
  if ks.length ≤ 1 then .ok ks
  else if ks.any (fun k => k.isNone) then .error .typeError
  else .ok (pySorted (fun k => k.getD "") desc ks)

/-- `sorted(unsorted[k], key=lambda y: y[self.sort_by], reverse=..)` wrapped
in `try .. except TypeError: raise Exception("Cannot sort by unset
attribute.")` (lines 572-577).  A `None` sort key on any entity of a
two-or-more element group is compared against another key and raises. -/
def sortEntities (g : List CrisEntity) (sb : String) (desc : Bool) :
    Except PyErr (List CrisEntity) :=
  if 2 ≤ g.length && g.any (fun e => (e.getItem sb).isNone) then
    .error (.exceptionMsg "Cannot sort by unset attribute.")
  else
    .ok (pySorted (fun e => (e.getItem sb).getD "") desc g)

/-- The result-building loop of `Formatter.execute` (lines 561-578) over the
computed `keylist`.  When `self.sort_by is None`, `results[k] = unsorted[k]`
indexes the group dict directly (a key absent from the data raises
`KeyError`; the `if not k in unsorted: continue` guard only protects the
sorting path); otherwise absent keys are skipped and present groups are
sorted by the `sort_by` attribute. -/
def buildResults (f : Formatter) (unsorted : Groups) :
    List (Option String) → Groups → Except PyErr Groups
  | [], results => .ok results
  | k :: ks, results =>
    match f.sort_by with
    | none =>
      match dictGet unsorted k with
      | none => .error (.keyError (fmtPct k))
      | some g => buildResults f unsorted ks (dictInsert results k g)
    | some sb =>
      match dictGet unsorted k with
      | none => buildResults f unsorted ks results
      | some g =>
        match sortEntities g sb (f.sort_order = .desc) with
        | .error e => .error e
        | .ok sorted_g => buildResults f unsorted ks (dictInsert results k sorted_g)

/-- `Formatter.execute` (lines 523-580).  Besides the ordered result groups,
the returned `Formatter` is the object state afterwards: `keylist =
self.group_order` ALIASES the stored list, so `keylist.extend(list(missing))`
(line 559) also mutates `self.group_order`, appending every group key found
in the data but absent from the explicit order (the set-difference iteration
order is modelled as first-appearance order). -/
def Formatter.execute (f : Formatter) (data : List (String × CrisEntity)) :
    Except PyErr (Groups × Formatter) :=
  match groupLoop f data none [] with
  | .error e => .error e
  | .ok (_, unsorted) =>
    let keyres : Except PyErr (List (Option String) × Formatter) :=
      match f.group_order with
      | .asc =>
        match sortGKeys (keysOf unsorted) false with
        | .error e => .error e
        | .ok ks => .ok (ks, f)
      | .desc =>
        match sortGKeys (keysOf unsorted) true with
        | .error e => .error e
        | .ok ks => .ok (ks, f)
      | .explicit l =>
        let missing := (keysOf unsorted).filter (fun k => !l.contains k)
        let newlist := if missing.isEmpty then l else l ++ missing
        .ok (newlist, { f with group_order := .explicit newlist })
    match keyres with
    | .error e => .error e
    | .ok (keylist, f2) =>
      match buildResults f unsorted keylist [] with
      | .error e => .error e
      | .ok results => .ok (results, f2)

/-! ## Title capitalization masking in `Publication.toBibTeX` (lines 400-411).

The masking block evaluates `re.findall(r"(\W+)?(\w+)(\W+)?", title)`.
Evaluating `re.findall` first resolves the global name `re` against the
module namespace; the import statements of `faucris.py` (lines 11-14) bind
`collections`, `urllib_request` and `etree` only -- the `re` module is never
imported anywhere in the file, so the lookup raises
`NameError: name "re" is not defined` whenever masking runs. -/

/-- The module-level names bound by the import statements of `faucris.py`
(lines 11-14) together with the module constants and classes it defines. -/
def moduleGlobals : List String :=
  ["collections", "urllib_request", "etree", "SORT_ASC", "SORT_DESC",
   "FauCris", "Publications", "CrisEntity", "Organization", "Publication",
   "Selector", "Formatter"]

/-- Regex `\w` word character (over the ASCII data the source handles). -/
def isWordChar (c : Char) : Bool := c.isAlpha || c.isDigit || c = '_'

/-- Maximal runs of the title, each tagged word-run (`true`) or not. -/
def runsOf : List Char → List (Bool × List Char)
  | [] => []
  | c :: cs =>
    match runsOf cs with
    | [] => [(isWordChar c, [c])]
    | (b, r) :: rest =>
      if b = isWordChar c then (b, c :: r) :: rest
      else (isWordChar c, [c]) :: (b, r) :: rest

/-- The successive matches of `(\W+)?(\w+)(\W+)?` over the alternating runs:
each match takes an optional leading non-word run (only available before the
first word), one word run, and an optional trailing non-word run. -/
def reTriples : List (Bool × List Char) → List (List Char × List Char × List Char)
  | [] => []
  | (false, w1) :: (true, a) :: (false, w2) :: rest => (w1, a, w2) :: reTriples rest
  | (false, w1) :: (true, a) :: rest => (w1, a, []) :: reTriples rest
  | (false, _) :: rest => reTriples rest
  | (true, a) :: (false, w2) :: rest => ([], a, w2) :: reTriples rest
  | (true, a) :: rest => ([], a, []) :: reTriples rest

/-- Python `str.islower()` for a `\w+` token: at least one cased character
and no upper-case one. -/
def pyIsLowerTok (t : List Char) : Bool :=
  t.any Char.isLower && t.all (fun c => !c.isUpper)

/-- Python `str.isdigit()` for a `\w+` token. -/
def pyIsDigitTok (t : List Char) : Bool := !t.isEmpty && t.all Char.isDigit

/-- An opening curly brace character. -/
def lbrace : Char := Char.ofNat 123

/-- A closing curly brace character. -/
def rbrace : Char := Char.ofNat 125

/-- Python `s.replace(c₁ ++ c₂, c)` for single characters: left-to-right,
non-overlapping. -/
def pyReplacePair (c1 c2 c : Char) : List Char → List Char
  | [] => []
  | [x] => [x]
  | x :: y :: xs =>
    if x = c1 && y = c2 then c :: pyReplacePair c1 c2 c xs
    else x :: pyReplacePair c1 c2 c (y :: xs)

/-- The mask computation itself (lines 402-410): every token that is neither
entirely lower-case nor entirely numeric is wrapped in braces together with
its captured surroundings, then doubled braces are collapsed. -/
def maskTitle (title : String) : String :=
  let out :=
    (reTriples (runsOf title.data)).foldl
      (fun acc t =>
        if !pyIsLowerTok t.2.1 && !pyIsDigitTok t.2.1 then
          acc ++ t.1 ++ [lbrace] ++ t.2.1 ++ [rbrace] ++ t.2.2
        else acc ++ t.1 ++ t.2.1 ++ t.2.2)
      []
  ⟨pyReplacePair rbrace rbrace rbrace (pyReplacePair lbrace lbrace lbrace out)⟩

/-- The masking step of `toBibTeX` as executed (lines 400-411): resolve the
global name `re`, then compute the masked title. -/
def maskCapsStep (title : String) : Except PyErr String :=
  if moduleGlobals.contains "re" then .ok (maskTitle title)
  else .error (.nameError "re")

/-- The title produced by `toBibTeX` for a given `mask_caps` flag
(default `True`). -/
def toBibTeXTitle (mask_caps : Bool) (title : String) : Except PyErr String :=
  if mask_caps then maskCapsStep title else .ok title

/-! ## Concrete instances used by the claim theorems -/

/-- An entity whose bag has no `x` attribute. -/
def entNoX : CrisEntity := ⟨[("id", some "1")]⟩

/-- The parsed form of `Selector({"x__eq": "banana"})`. -/
def selEqBanana : Selector := ⟨[("x", [("eq", "banana")])]⟩

/-- The parsed form of `Selector({"x__eq": "none"})`. -/
def selEqNoneStr : Selector := ⟨[("x", [("eq", "none")])]⟩

/-- An entity whose `x` attribute is the upper-case string `A`. -/
def entUpperA : CrisEntity := ⟨[("id", some "1"), ("x", some "A")]⟩

/-- The parsed form of `Selector({"x__eq": "A"})`. -/
def selEqRefA : Selector := ⟨[("x", [("eq", "A")])]⟩

/-- The parsed form of `Selector({"x__eq": "a"})`. -/
def selEqRefLowA : Selector := ⟨[("x", [("eq", "a")])]⟩

/-- Raw record with id 7 fetched by the first descriptor. -/
def recFirst : RawRecord := ⟨some "7", some "c1", none, []⟩

/-- Raw record with the same id 7 fetched by the second descriptor. -/
def recSecond : RawRecord := ⟨some "7", some "c2", none, []⟩

/-- `recFirst` normalized. -/
def entFirst : CrisEntity := ⟨[("id", some "7"), ("createdon", some "c1"), ("updatedon", none)]⟩

/-- `recSecond` normalized. -/
def entSecond : CrisEntity := ⟨[("id", some "7"), ("createdon", some "c2"), ("updatedon", none)]⟩

/-- A transport returning one record for each of the two descriptors. -/
def fetchTwo : String → Option (List RawRecord) := fun r =>
  if r = "a" then some [recFirst] else if r = "b" then some [recSecond] else none

/-- `Formatter("x", SORT_ASC, "y", SORT_ASC)` as stored. -/
def fmtGroupX : Formatter := ⟨some "x", .asc, some "y", .asc⟩

/-- An entity with `x = "A"` and `y = "h"`. -/
def entWithX : CrisEntity := ⟨[("id", some "1"), ("x", some "A"), ("y", some "h")]⟩

/-- An entity without `x` but with `y = "k"`. -/
def entNoX2 : CrisEntity := ⟨[("id", some "2"), ("y", some "k")]⟩

/-- A formatter state with `sort_by` unset -- the state `__init__` was
evidently meant to produce for `sort_by=None` but cannot (its `except`
clause catches the wrong exception class). -/
def fmtNoSort : Formatter := ⟨some "g", .asc, none, .asc⟩

/-- Entity in group `a`, inserted first. -/
def entG1 : CrisEntity := ⟨[("id", some "1"), ("g", some "a")]⟩

/-- Entity in group `a`, inserted second. -/
def entG2 : CrisEntity := ⟨[("id", some "2"), ("g", some "a")]⟩

/-- Entity in group `b`. -/
def entG3 : CrisEntity := ⟨[("id", some "3"), ("g", some "b")]⟩

/-- `Formatter("x", ["a"], "y", SORT_ASC)` as stored. -/
def fmtExplicitA : Formatter := ⟨some "x", .explicit [some "a"], some "y", .asc⟩

/-- An entity whose group key `b` is absent from `fmtExplicitA`'s order list. -/
def entGroupB : CrisEntity := ⟨[("id", some "1"), ("x", some "b"), ("y", some "q")]⟩

/-- `fmtExplicitA` after `execute` has run on data containing group `b`:
the explicit order list has been extended in place. -/
def fmtExplicitAB : Formatter := ⟨some "x", .explicit [some "a", some "b"], some "y", .asc⟩

/-- A `choicegroup` attribute child named `Foo` whose `additionalInfo`
sub-node is absent. -/
def choiceNoInfo : AttrNode := ⟨"attribute", some "Foo", none, some "choicegroup", none, none⟩

/-- A raw record whose only attribute child is `choiceNoInfo`. -/
def recChoice : RawRecord := ⟨some "9", none, none, [choiceNoInfo]⟩

/-- `recChoice` normalized: the key `foo` is present and maps to `None`. -/
def entChoice : CrisEntity :=
  ⟨[("id", some "9"), ("createdon", none), ("updatedon", none), ("foo", none)]⟩

/-- A well-formed attribute child (`Good = "v"`). -/
def goodAttr : AttrNode := ⟨"attribute", some "Good", none, none, some (some "v"), none⟩

/-- A malformed non-`choicegroup` attribute child: its `data` sub-node is
absent. -/
def badAttr : AttrNode := ⟨"attribute", some "Bad", none, none, none, none⟩

/-- A raw record with one good and one malformed attribute child. -/
def recOneBad : RawRecord := ⟨some "9", none, none, [goodAttr, badAttr]⟩

/-! ## Dictionary lemmas -/

/-- Looking up after a dict assignment: the assigned key reads back the new
value, every other key is untouched. -/
theorem dictGet_dictInsert {κ α : Type} [DecidableEq κ]
    (m : List (κ × α)) (k k' : κ) (v : α) :
    dictGet (dictInsert m k v) k' = if k = k' then some v else dictGet m k' := by
  induction m with
  | nil => simp [dictInsert, dictGet]
  | cons p ps ih =>
    by_cases h1 : p.1 = k
    · by_cases h2 : k = k'
      · subst h2; simp [dictInsert, dictGet, h1]
      · simp [dictInsert, dictGet, h1, h2]
    · by_cases h2 : k = k'
      · have h3 : ¬ p.1 = k' := h2 ▸ h1
        rw [h2] at ih
        simp [dictInsert, dictGet, h1, h2, h3, ih]
      · simp [dictInsert, dictGet, h1, h2, ih]

/-- Key membership after a dict assignment. -/
theorem mem_keys_dictInsert {κ α : Type} [DecidableEq κ]
    (m : List (κ × α)) (k k' : κ) (v : α) :
    k' ∈ (dictInsert m k v).map Prod.fst ↔ k' ∈ m.map Prod.fst ∨ k' = k := by
  induction m with
  | nil => simp [dictInsert]
  | cons p ps ih =>
    by_cases h1 : p.1 = k <;> simp [dictInsert, h1, ih] <;> tauto

/-- Dict assignment preserves key uniqueness. -/
theorem nodup_keys_dictInsert {κ α : Type} [DecidableEq κ]
    (m : List (κ × α)) (k : κ) (v : α) (h : (m.map Prod.fst).Nodup) :
    ((dictInsert m k v).map Prod.fst).Nodup := by
  induction m with
  | nil => simp [dictInsert]
  | cons p ps ih =>
    simp only [List.map_cons, List.nodup_cons] at h
    by_cases h1 : p.1 = k
    · simp only [dictInsert, h1, if_pos rfl, ite_true, List.map_cons, List.nodup_cons]
      refine ⟨?_, h.2⟩
      rw [← h1]; exact h.1
    · simp only [dictInsert, h1, ite_false, if_neg h1, List.map_cons, List.nodup_cons]
      refine ⟨?_, ih h.2⟩
      intro hmem
      rcases (mem_keys_dictInsert ps k p.1 v).mp hmem with hin | heq
      · exact h.1 hin
      · exact h1 heq

/-- A fold of dict assignments preserves key uniqueness. -/
theorem nodup_keys_foldl {κ α : Type} [DecidableEq κ] (ps : List (κ × α)) :
    ∀ m : List (κ × α), (m.map Prod.fst).Nodup →
      ((ps.foldl (fun acc p => dictInsert acc p.1 p.2) m).map Prod.fst).Nodup := by
  induction ps with
  | nil => intro m h; simpa using h
  | cons p ps ih => intro m h; exact ih _ (nodup_keys_dictInsert m p.1 p.2 h)

/-- A fold of dict assignments realises last-write-wins: a key reads back the
value of the last pair carrying it, or its value in the initial dict. -/
theorem dictGet_foldl {κ α : Type} [DecidableEq κ] (ps : List (κ × α)) :
    ∀ (m : List (κ × α)) (k : κ),
      dictGet (ps.foldl (fun acc p => dictInsert acc p.1 p.2) m) k =
        (lastVal ps k).elim (dictGet m k) some := by
  induction ps with
  | nil => intro m k; simp [lastVal]
  | cons p ps ih =>
    intro m k
    simp only [List.foldl_cons]
    rw [ih]
    cases h : lastVal ps k with
    | some v => simp [lastVal, h]
    | none =>
      by_cases h2 : p.1 = k <;>
        simp [lastVal, h, h2, dictGet_dictInsert, Option.elim]

/-- Relates the merging loop of `retrieve` to the flat list of kept pairs:
a successful run merges exactly the kept pairs, in order, into the dict. -/
theorem processRecords_keptList (sel : Option Selector) (recs : List RawRecord) :
    ∀ res0 m : List (String × CrisEntity),
      processRecords sel res0 recs = .ok m →
      ∃ ps, keptList sel recs = .ok ps ∧
        m = ps.foldl (fun acc p => dictInsert acc p.1 p.2) res0 := by
  induction recs with
  | nil =>
    intro res0 m h
    simp only [processRecords] at h
    injection h with h
    exact ⟨[], rfl, by simp [h]⟩
  | cons r rest ih =>
    intro res0 m h
    simp only [processRecords, processRecord] at h
    cases hk : keptRecord sel r with
    | error e => rw [hk] at h; simp at h
    | ok p? =>
      rw [hk] at h
      cases p? with
      | none =>
        simp only at h
        obtain ⟨ps, hps, hm⟩ := ih res0 m h
        exact ⟨ps, by simp [keptList, hk, hps], hm⟩
      | some p =>
        simp only at h
        obtain ⟨ps, hps, hm⟩ := ih _ m h
        exact ⟨p :: ps, by simp [keptList, hk, hps], by simp [hm]⟩

/-! ## Claims -/

/-- C1: the claim says an absent attribute makes all predicates on that field
vacuously true, so a single-criterion selector on an absent field always
evaluates true.  The code disagrees: `CrisEntity.__getitem__` never raises
`KeyError`, so the skip branch is dead and the absent attribute evaluates as
the string `none` (from `str(None).lower()`) -- the selector
`x__eq: banana` is false on an entity without `x`, while `x__eq: none`
is (accidentally) true. -/
theorem C1_missing_field_not_vacuous :
    Selector.init [("x__eq", "banana")] = .ok selEqBanana ∧
    Selector.evaluate selEqBanana entNoX = .ok false ∧
    Selector.init [("x__eq", "none")] = .ok selEqNoneStr ∧
    Selector.evaluate selEqNoneStr entNoX = .ok true :=
  ⟨rfl, rfl, rfl, rfl⟩

/-- C2: on every successful run, `retrieve` merges the fetched records into a
collection with exactly one entity per identity (no duplicate keys), and the
entity stored under an identity is the LAST kept record carrying that
identity in descriptor order (last-write-wins). -/
theorem C2_retrieve_last_write_wins (reqs : List String)
    (fetchDoc : String → Option (List RawRecord)) (sel : Option Selector)
    (m ps : List (String × CrisEntity)) (k : String)
    (h1 : retrieve reqs fetchDoc sel = .ok m)
    (h2 : keptPairs reqs fetchDoc sel = .ok ps) :
    (m.map Prod.fst).Nodup ∧ dictGet m k = lastVal ps k := by
  unfold retrieve at h1
  unfold keptPairs at h2
  obtain ⟨ps2, hps2, hm⟩ := processRecords_keptList sel _ [] m h1
  rw [hps2] at h2
  injection h2 with h2
  subst h2
  subst hm
  refine ⟨nodup_keys_foldl _ [] (by simp), ?_⟩
  rw [dictGet_foldl]
  cases hlv : lastVal ps2 k <;> simp [hlv, dictGet, Option.elim]

/-- Witness for C2: two descriptors both yield a record with id 7; the merged
collection holds exactly the entity fetched by the later descriptor. -/
theorem C2_retrieve_last_write_wins_witness :
    (([("7", entSecond)] : List (String × CrisEntity)).map Prod.fst).Nodup ∧
      dictGet [("7", entSecond)] "7" = lastVal [("7", entFirst), ("7", entSecond)] "7" :=
  C2_retrieve_last_write_wins ["a", "b"] fetchTwo none
    [("7", entSecond)] [("7", entFirst), ("7", entSecond)] "7" rfl rfl

/-- C3: the claim says an `eq` comparison case-folds both the entity value
and the reference value.  The code lower-cases only the entity side
(`str(dataset[_a]).lower()`), never the reference, contradicting its own
docstring "Comparison is done case-insensitive": on an entity with
`x = "A"`, the selector `x__eq: "A"` evaluates FALSE, while `x__eq: "a"`
evaluates true. -/
theorem C3_reference_not_case_folded :
    Selector.init [("x__eq", "A")] = .ok selEqRefA ∧
    Selector.evaluate selEqRefA entUpperA = .ok false ∧
    Selector.init [("x__eq", "a")] = .ok selEqRefLowA ∧
    Selector.evaluate selEqRefLowA entUpperA = .ok true :=
  ⟨rfl, rfl, rfl, rfl⟩

/-- Counterexample to C4: constructing a Selector from a criteria mapping
with the unsupported operator name `foo` SUCCEEDS -- `Selector.__init__`
never validates the operator -- refuting the claim that it fails at
construction time. -/
theorem C4_unsupported_op_accepted_cex :
    Selector.init [("publyear__foo", "2015")] = .ok ⟨[("publyear", [("foo", "2015")])]⟩ :=
  rfl

/-- C4 (amended): construction never validates the operator name (only a
key lacking the `__` separator is a construction-time `IndexError`), and
what an unsupported operator does is decided only at evaluation time --
where it is NOT uniformly an error: an operator name that `getattr` does
not find on the string value (any name outside `strSpecialOps`, such as
`foo`) raises `AttributeError` there, while a name that happens to denote a
non-comparison string method (such as `add`) is SILENTLY ignored: its
predicate passes and evaluation succeeds. -/
theorem C4_unsupported_op_deferred (field op v : String) (e : CrisEntity)
    (hop : strSpecialOps.contains op = false) :
    Selector.evaluate ⟨[(field, [(op, v)])]⟩ e = .error (.attributeError op) ∧
    Selector.init [("publyear__foo", v)] = .ok ⟨[("publyear", [("foo", v)])]⟩ ∧
    Selector.evaluate ⟨[("publyear", [("foo", v)])]⟩ e = .error (.attributeError "foo") ∧
    Selector.init [("publyear__add", v)] = .ok ⟨[("publyear", [("add", v)])]⟩ ∧
    Selector.evaluate ⟨[("publyear", [("add", v)])]⟩ e = .ok true := by
  refine ⟨?_, rfl, rfl, rfl, rfl⟩
  have hmem : op ∉ strSpecialOps := by simpa using hop
  have happ : applyOp (pyLower (pyStr (e.getItem field))) v op =
      .error (.attributeError op) := by
    simp [applyOp, hop, hmem]
  simp [Selector.evaluate, evalFields, evalPreds, happ]

/-- Witness for C4 (amended): field `publyear`, the unsupported operators
`foo` (not a string method, so an evaluation-time `AttributeError`) and
`add` (a non-comparison string method, so silently ignored), reference
`2015`, on a concrete entity. -/
theorem C4_unsupported_op_deferred_witness :
    Selector.evaluate ⟨[("publyear", [("foo", "2015")])]⟩ entNoX =
      .error (.attributeError "foo") ∧
    Selector.init [("publyear__foo", "2015")] = .ok ⟨[("publyear", [("foo", "2015")])]⟩ ∧
    Selector.evaluate ⟨[("publyear", [("foo", "2015")])]⟩ entNoX =
      .error (.attributeError "foo") ∧
    Selector.init [("publyear__add", "2015")] = .ok ⟨[("publyear", [("add", "2015")])]⟩ ∧
    Selector.evaluate ⟨[("publyear", [("add", "2015")])]⟩ entNoX = .ok true :=
  C4_unsupported_op_deferred "publyear" "foo" "2015" entNoX rfl

/-- C5: the claim says an entity lacking the `group_by` attribute makes
`execute` fail with "selected attribute not found".  The code disagrees:
that handler catches `KeyError`, which `CrisEntity.__getitem__` never
raises; the actual `AttributeError` path leaves `groupvalue` unassigned, so
the first such entity raises `UnboundLocalError`, and a later one is
SILENTLY placed in the previous entity group (here: entity 2 without `x`
lands in group `a` of entity 1). -/
theorem C5_missing_group_attribute_misbehaves :
    Formatter.execute fmtGroupX [("2", entNoX2)] = .error .unboundLocalError ∧
    Formatter.execute fmtGroupX [("1", entWithX), ("2", entNoX2)] =
      .ok ([(some "a", [entWithX, entNoX2])], fmtGroupX) :=
  ⟨rfl, rfl⟩

/-- C6: the claim says a Formatter may be constructed with `sort_by` unset
and then preserves insertion order within groups.  The code disagrees on the
first half: for EVERY choice of the other arguments,
`Formatter(.., sort_by=None, ..)` raises `AttributeError`
(`None.lower()`), because the guard catches `ValueError` instead.  The
second conjunct shows the behaviour the claim describes on the formatter
state the constructor was evidently meant to produce: with `sort_by` unset,
groups keep insertion order (entities 1, 2 in group `a`, in that order). -/
theorem C6_sort_by_none_construction_fails :
    (∀ (gb : Option String) (go so : OrderArg),
      Formatter.init gb go none so = .error (.attributeError "lower")) ∧
    Formatter.execute fmtNoSort [("1", entG1), ("2", entG2), ("3", entG3)] =
      .ok ([(some "a", [entG1, entG2]), (some "b", [entG3])], fmtNoSort) :=
  ⟨fun _ _ _ => rfl, rfl⟩

/-- Counterexample to C7: executing a Formatter whose explicit group order
list is `[a]` on data containing group key `b` returns a formatter state
whose `group_order` list has become `[a, b]` -- `keylist = self.group_order`
aliases the stored list and `keylist.extend(..)` mutates it, so the
configuration is NOT unchanged by `execute`. -/
theorem C7_group_order_mutated_cex :
    Formatter.execute fmtExplicitA [("1", entGroupB)] =
      .ok ([(some "b", [entGroupB])], fmtExplicitAB) ∧
    fmtExplicitAB.group_order ≠ fmtExplicitA.group_order :=
  ⟨rfl, by decide⟩

/-- C7 (amended): on every successful run, `execute` leaves `group_by`,
`sort_by` and `sort_order` unchanged, and leaves `group_order` unchanged
when it is the ascending or descending sentinel; but when `group_order` is
an explicit list, the returned state carries that list extended (possibly by
nothing) with the group keys found in the data but absent from the list. -/
theorem C7_execute_frame (f : Formatter) (data : List (String × CrisEntity))
    (res : Groups) (f2 : Formatter)
    (h : Formatter.execute f data = .ok (res, f2)) :
    f2.group_by = f.group_by ∧ f2.sort_by = f.sort_by ∧
    f2.sort_order = f.sort_order ∧
    ((f.group_order = .asc ∨ f.group_order = .desc) → f2.group_order = f.group_order) ∧
    (∀ l, f.group_order = .explicit l → ∃ extra, f2.group_order = .explicit (l ++ extra)) := by
  unfold Formatter.execute at h
  cases hg : groupLoop f data none [] with
  | error e => rw [hg] at h; simp at h
  | ok st =>
    obtain ⟨gv, unsorted⟩ := st
    rw [hg] at h
    dsimp only at h
    cases hgo : f.group_order with
    | asc =>
      rw [hgo] at h
      dsimp only at h
      cases hs : sortGKeys (keysOf unsorted) false with
      | error e => rw [hs] at h; simp at h
      | ok ks =>
        rw [hs] at h
        dsimp only at h
        cases hb : buildResults f unsorted ks [] with
        | error e => rw [hb] at h; simp at h
        | ok results =>
          rw [hb] at h
          dsimp only at h
          injection h with h
          rw [Prod.mk.injEq] at h
          obtain ⟨hres, hf⟩ := h
          subst hf
          exact ⟨rfl, rfl, rfl, fun _ => hgo, fun l hl => absurd hl (by simp)⟩
    | desc =>
      rw [hgo] at h
      dsimp only at h
      cases hs : sortGKeys (keysOf unsorted) true with
      | error e => rw [hs] at h; simp at h
      | ok ks =>
        rw [hs] at h
        dsimp only at h
        cases hb : buildResults f unsorted ks [] with
        | error e => rw [hb] at h; simp at h
        | ok results =>
          rw [hb] at h
          dsimp only at h
          injection h with h
          rw [Prod.mk.injEq] at h
          obtain ⟨hres, hf⟩ := h
          subst hf
          exact ⟨rfl, rfl, rfl, fun _ => hgo, fun l hl => absurd hl (by simp)⟩
    | explicit l0 =>
      rw [hgo] at h
      dsimp only at h
      set ms := (keysOf unsorted).filter (fun k => !l0.contains k) with hms
      set nl := if ms.isEmpty then l0 else l0 ++ ms with hnl
      cases hb : buildResults f unsorted nl [] with
      | error e => rw [hb] at h; simp at h
      | ok results =>
        rw [hb] at h
        dsimp only at h
        injection h with h
        rw [Prod.mk.injEq] at h
        obtain ⟨hres, hf⟩ := h
        subst hf
        refine ⟨rfl, rfl, rfl, ?_, ?_⟩
        · intro hor
          rcases hor with hx | hx <;> exact absurd hx (by simp)
        · intro l hl
          injection hl with he
          subst he
          by_cases hm2 : ms.isEmpty
          · exact ⟨[], by simp only [hnl, if_pos hm2]; simp⟩
          · exact ⟨ms, by simp only [hnl, if_neg hm2]⟩

/-- Witness for C7 (amended): executing `fmtExplicitA` (explicit order
`[a]`) on data whose only group key is `b` keeps `group_by`, `sort_by` and
`sort_order`, and returns `group_order` as the original list extended. -/
theorem C7_execute_frame_witness :
    fmtExplicitAB.group_by = fmtExplicitA.group_by ∧
    fmtExplicitAB.sort_by = fmtExplicitA.sort_by ∧
    fmtExplicitAB.sort_order = fmtExplicitA.sort_order ∧
    ((fmtExplicitA.group_order = .asc ∨ fmtExplicitA.group_order = .desc) →
      fmtExplicitAB.group_order = fmtExplicitA.group_order) ∧
    (∀ l, fmtExplicitA.group_order = .explicit l →
      ∃ extra, fmtExplicitAB.group_order = .explicit (l ++ extra)) :=
  C7_execute_frame fmtExplicitA [("1", entGroupB)]
    [(some "b", [entGroupB])] fmtExplicitAB rfl

/-- Counterexample to C8: normalizing a record whose only attribute child is
a `choicegroup` named `Foo` with no `additionalInfo` sub-node yields an
entity whose bag CONTAINS the key `foo` mapped to `None` -- the attribute is
present-with-null, not unset -- and item access cannot tell this key apart
from a key that was never stored. -/
theorem C8_present_with_null_cex :
    CrisEntity.normalize recChoice = .ok entChoice ∧
    dictGet entChoice._data "foo" = some none ∧
    entChoice.getItem "foo" = entChoice.getItem "nosuchkey" :=
  ⟨rfl, rfl, rfl⟩

/-- C8 (amended): when a `choicegroup` attribute child's value location
(`additionalInfo`) is absent, normalization stores the attribute PRESENT
with a null value rather than leaving it unset: the child contributes the
pair `(lower-cased name, None)` and the loop inserts exactly that binding
into the bag. -/
theorem C8_choicegroup_absent_stores_null (c : AttrNode) (n : String)
    (d : List (String × Option String)) (rest : List AttrNode)
    (htag : pyLower c.tag = "attribute") (hname : c.name = some n)
    (hlang : c.language ≠ some "1") (hdisp : c.disposition = some "choicegroup")
    (hinfo : c.additionalInfoText = none) :
    childKV c = .ok (some (pyLower n, none)) ∧
    normalizeChildren d (c :: rest) = normalizeChildren (dictInsert d (pyLower n) none) rest := by
  have hkv : childKV c = .ok (some (pyLower n, none)) := by
    simp [childKV, htag, hname, hlang, hdisp, hinfo]
  exact ⟨hkv, by simp [normalizeChildren, hkv]⟩

/-- Witness for C8 (amended), at the concrete child `choiceNoInfo`. -/
theorem C8_choicegroup_absent_stores_null_witness :
    childKV choiceNoInfo = .ok (some (pyLower "Foo", none)) ∧
    normalizeChildren [] [choiceNoInfo] =
      normalizeChildren (dictInsert [] (pyLower "Foo") none) [] :=
  C8_choicegroup_absent_stores_null choiceNoInfo "Foo" [] []
    rfl rfl (by decide) rfl rfl

/-- Counterexample to C9: normalizing a record with one well-formed
attribute child and one malformed one (a non-`choicegroup` attribute whose
`data` sub-node is absent) does NOT return an entity with the malformed
attribute merely unset -- it raises (`IndexError` from `xpath("./data")[0]`),
aborting the whole record. -/
theorem C9_single_bad_attribute_aborts_cex :
    CrisEntity.normalize recOneBad = .error .indexError :=
  rfl

/-- C9 (amended): a single malformed non-`choicegroup` attribute child (its
`data` sub-node absent) aborts normalization of the whole record with an
`IndexError` the moment it is reached, whatever was parsed before and
whatever follows; only `choicegroup` attributes degrade silently. -/
theorem C9_missing_data_node_aborts (d : List (String × Option String))
    (c : AttrNode) (n : String) (rest : List AttrNode)
    (htag : pyLower c.tag = "attribute") (hname : c.name = some n)
    (hdisp : c.disposition ≠ some "choicegroup") (hdata : c.dataText = none) :
    normalizeChildren d (c :: rest) = .error .indexError := by
  have hkv : childKV c = .error .indexError := by
    simp [childKV, htag, hname, hdisp, hdata]
  simp [normalizeChildren, hkv]

/-- Witness for C9 (amended), at the concrete malformed child `badAttr`. -/
theorem C9_missing_data_node_aborts_witness :
    normalizeChildren [] [badAttr] = .error .indexError :=
  C9_missing_data_node_aborts [] badAttr "Bad" [] rfl rfl (by decide) rfl

/-- C10: the claim says the title masking of `toBibTeX` completes without
error and produces the brace-wrapped title.  The code cannot: the masking
block calls `re.findall`, but the module does not bind the name `re` (its
only imports are `collections`, `urllib.request` and `lxml.etree`), so with
masking enabled the title computation raises `NameError` for every title.
The second conjunct records what the mask computation itself would produce
on a sample title, were `re` available. -/
theorem C10_masking_raises_name_error :
    (∀ title, toBibTeXTitle true title = .error (.nameError "re")) ∧
    maskTitle "The DNA of 42 cells" = "\x7bThe\x7d \x7bDNA\x7d of 42 cells" :=
  ⟨fun _ => rfl, rfl⟩
